import Mathlib

/-!
# Flight tracker: fetch, projection, marker lifecycle, selection

A shallow embedding of `src/page/Home.jsx`.

* JSON numbers are rationals (`ℚ`); the trigonometry of the projection and of the
  highlight pulse is taken over the reals (`ℝ`).
* A thrown JavaScript error is the `Except.error` of its `message` string.
* The awaited steps of one call (`fetchFlights`, `updateMarkers`, one timer tick)
  run to completion before the next event is taken.
-/

namespace FlightTracker

/-! ## Data model -/

/-- The value of an `icao24` property as the strict comparison `===` sees it:
`undefined` when the property (or its owner) is absent, JSON `null`, or a string. -/
inductive Ident where
  | undefined
  | null
  | str (s : String)
  deriving DecidableEq, Repr

/-- A value at index 1 of an entry that is not `null`: a string, or a value of another
kind (number, boolean, array, object) with its truthiness; only a string has `trim`. -/
inductive Callsign where
  | str (s : String)
  | other (truthy : Bool)
  deriving DecidableEq

/-- One array `s` of `data.states`, restricted to the indices that `fetchFlights` reads.
A nullable field holds `none` for JSON `null`. -/
structure RawState where
  s0 : Ident
  s1 : Option Callsign
  s2 : Option String
  s5 : Option ℚ
  s6 : Option ℚ
  s7 : Option ℚ
  s9 : Option ℚ
  s10 : Option ℚ
  s11 : Option ℚ
  deriving DecidableEq

/-- The object literal built by the `.map` callback of `fetchFlights`. -/
structure Flight where
  icao24 : Ident
  callsign : String
  latitude : ℚ
  longitude : ℚ
  altitude : ℚ
  velocity : ℚ
  heading : ℚ
  verticalRate : ℚ
  country : String
  deriving DecidableEq

/-- JavaScript truthiness of a nullable number: `null` and `0` are falsy. -/
def truthyNum : Option ℚ → Bool
  | none => false
  | some q => decide (q ≠ 0)

/-- JavaScript truthiness of the value at index 1: `null` and the empty string are falsy. -/
def truthyCallsign : Option Callsign → Bool
  | none => false
  | some (.str s) => decide (s ≠ "")
  | some (.other truthy) => truthy

/-- The expression `v || d` for a nullable number `v`. -/
def orNum (v : Option ℚ) (d : ℚ) : ℚ :=
  match v with
  | none => d
  | some q => if q = 0 then d else q

/-- The expression `v || d` for a nullable string `v`. -/
def orStr (v : Option String) (d : String) : String :=
  match v with
  | none => d
  | some s => if s = "" then d else s

/-- The code points that `String.prototype.trim` strips (white space and line terminators). -/
def isJsWhitespace (c : Char) : Bool :=
  let n := c.toNat
  n == 9 || n == 10 || n == 11 || n == 12 || n == 13 || n == 32 || n == 160 || n == 5760 ||
    (decide (8192 ≤ n) && decide (n ≤ 8202)) || n == 8232 || n == 8233 || n == 8239 ||
    n == 8287 || n == 12288 || n == 65279

/-- The method `String.prototype.trim`. -/
def jsTrim (s : String) : String :=
  String.mk (((s.data.dropWhile isJsWhitespace).reverse.dropWhile isJsWhitespace).reverse)

/-- The array method `.map(fn)` for a callback that may throw: the first throw aborts it. -/
def mapThrowing {α β : Type} (fn : α → Except String β) : List α → Except String (List β)
  | [] => .ok []
  | a :: rest =>
    match fn a with
    | .error m => .error m
    | .ok b =>
      match mapThrowing fn rest with
      | .error m => .error m
      | .ok bs => .ok (b :: bs)

/-- The array method `.filter(fn)` for a callback that may throw: the first throw aborts it. -/
def filterThrowing {α : Type} (fn : α → Except String Bool) : List α → Except String (List α)
  | [] => .ok []
  | a :: rest =>
    match fn a with
    | .error m => .error m
    | .ok keep =>
      match filterThrowing fn rest with
      | .error m => .error m
      | .ok kept => .ok (if keep = true then a :: kept else kept)

/-! ## fetchFlights -/

/-- Message of the `TypeError` raised when the property `prop` is read from `null`
(the wording is the engine's). -/
def nullReadMessage (prop : String) : String :=
  "Cannot read properties of null (reading '" ++ prop ++ "')"

/-- Message of the `TypeError` raised when `callee` is called and is not a function
(the wording is the engine's). -/
def notFunctionMessage (callee : String) : String := callee ++ " is not a function"

/-- The value of `s[5] && s[6] && s[7] && s[1]` on an array `s`, as its truthiness. -/
def keepFields (s : RawState) : Bool :=
  truthyNum s.s5 && truthyNum s.s6 && truthyNum s.s7 && truthyCallsign s.s1

/-- The filter callback `s => s[5] && s[6] && s[7] && s[1]` on an element of `data.states`
(`none` for a `null` element, on which the read `s[5]` throws). -/
def keepState : Option RawState → Except String Bool
  | none => .error (nullReadMessage "5")
  | some s => .ok (keepFields s)

/-- The map callback of `fetchFlights` on an element of `data.states`: the read `s[0]`
throws on a `null` element, and `s[1].trim()` throws when `s[1]` is `null` or is not a
string. -/
def toFlight : Option RawState → Except String Flight
  | none => .error (nullReadMessage "0")
  | some s =>
    match s.s1 with
    | none => .error (nullReadMessage "trim")
    | some (.other _) => .error (notFunctionMessage "s[1].trim")
    | some (.str cs) =>
      .ok { icao24 := s.s0
            callsign := jsTrim cs
            latitude := orNum s.s6 0
            longitude := orNum s.s5 0
            altitude := orNum s.s7 0
            velocity := orNum s.s9 0
            heading := orNum s.s10 0
            verticalRate := orNum s.s11 0
            country := orStr s.s2 "Unknown" }

/-- The value of `data.states` when it is neither absent nor `null`: an array of elements
(`none` for a `null` element), or a value that is not an array and so has no `filter`. -/
inductive States where
  | notArray
  | arr (elements : List (Option RawState))

/-- A parsed JSON body: `null`, or a value of which the code reads
`message` and `states` (`none` when the key is absent or `null`). -/
inductive Body where
  | null
  | obj (message : Option String) (states : Option States)

/-- The `Response` of the request: its `ok` flag and what `res.json()` settles to
(a rejection with the error's message, or the parsed body). -/
structure Response where
  ok : Bool
  json : Except String Body

/-- How the promise returned by `fetch(...)` settles. -/
inductive FetchResult where
  | rejected (message : String)
  | resolved (res : Response)

/-- The property read `errorData.message`. -/
def Body.readMessage : Body → Except String (Option String)
  | .null => .error (nullReadMessage "message")
  | .obj message _ => .ok message

/-- The property read `data.states`. -/
def Body.readStates : Body → Except String (Option States)
  | .null => .error (nullReadMessage "states")
  | .obj _ states => .ok states

/-- The `try` block of `fetchFlights`: the returned sequence, or the thrown error's message. -/
def fetchFlightsTry (r : FetchResult) : Except String (List Flight) :=
  match r with
  | .rejected m => .error m
  | .resolved res =>
    if res.ok = false then
      match res.json with
      | .error m => .error m
      | .ok errorData =>
        match errorData.readMessage with
        | .error m => .error m
        | .ok message => .error (orStr message "Failed to fetch flight data")
    else
      match res.json with
      | .error m => .error m
      | .ok data =>
        match data.readStates with
        | .error m => .error m
        | .ok none => .ok []
        | .ok (some .notArray) => .error (notFunctionMessage "data.states?.filter")
        | .ok (some (.arr states)) =>
          match filterThrowing keepState states with
          | .error m => .error m
          | .ok kept => mapThrowing toFlight kept

/-- The function `fetchFlights`: the returned sequence and the `error` state after the call
(`setError` is only reached in the `catch` block). -/
def fetchFlights (r : FetchResult) (error : Option String) : List Flight × Option String :=
  match fetchFlightsTry r with
  | .ok flights => (flights, error)
  | .error m => ([], some m)

/-! ## Projection -/

/-- Lines 107-113 of `updateMarkers`: the marker position `(x, y, z)` for a latitude and
longitude in degrees and an altitude in meters. -/
noncomputable def project (latitude longitude altitude : ℝ) : ℝ × ℝ × ℝ :=
  let R := 200 + altitude / 2000
  let phi := (90 - latitude) * (Real.pi / 180)
  let theta := (longitude + 180) * (Real.pi / 180)
  (-R * Real.sin phi * Real.cos theta, R * Real.cos phi, R * Real.sin phi * Real.sin theta)

/-! ## Markers -/

/-- A model template, as far as the marker code looks at it: the number of mesh nodes
that `traverse` visits. -/
structure Model where
  meshCount : Nat
  deriving DecidableEq

/-- The box mesh substituted when the model file fails to load. -/
def fallbackModel : Model := { meshCount := 1 }

/-- A marker object: its identity (`id`, distinct for every object created),
`userData.flight`, the uniform scale, `rotation.y`, `position`, and the
`emissiveIntensity` of the material of each of its meshes. -/
structure Marker where
  id : Nat
  flight : Flight
  scale : ℚ
  rotationY : ℝ
  position : ℝ × ℝ × ℝ
  emissiveIntensity : List ℝ

/-- The mutable state of the view: the object counter, `modelCache`,
the children of `markersGroupRef.current` (`none` while the ref is `null`), the selection
(`selectedPlane`, mirrored by `selectedPlaneRef.current`) and `error`. -/
structure View where
  nextId : Nat
  modelCache : Option Model
  markersGroupRef : Option (List Marker)
  selectedPlane : Option Flight
  error : Option String

/-- The function `loadModel`: the cached template when there is one, else the loaded scene
(`asset`), or the fallback box when loading fails (`asset = none`); the second component
is `modelCache` after the call. -/
def loadModel (asset : Option Model) (modelCache : Option Model) : Model × Option Model :=
  match modelCache with
  | some m => (m, modelCache)
  | none =>
    match asset with
    | some scene => (scene, some scene)
    | none => (fallbackModel, some fallbackModel)

/-- The function `createPlaneMarker`: a fresh clone of the template, scaled by 5, bound to
`flight`, every mesh material with emissive intensity 0, turned by the heading. -/
noncomputable def createPlaneMarker (asset : Option Model) (flight : Flight) (v : View) :
    Marker × View :=
  let loaded := loadModel asset v.modelCache
  ({ id := v.nextId
     flight := flight
     scale := 5
     rotationY := -((flight.heading : ℝ) * (Real.pi / 180))
     position := (0, 0, 0)
     emissiveIntensity := List.replicate loaded.1.meshCount 0 },
   { v with nextId := v.nextId + 1, modelCache := loaded.2 })

/-- The loop `while (children.length > 0) remove(children[0])`. -/
def removeAll : List Marker → List Marker
  | [] => []
  | _ :: rest => removeAll rest

/-- The guard of the `for` loop of `updateMarkers` that skips a flight. -/
def outOfRange (flight : Flight) : Bool :=
  decide (flight.latitude < -90) || decide (flight.latitude > 90) ||
    decide (flight.longitude < -180) || decide (flight.longitude > 180)

/-- The method `markersGroupRef.current.add(marker)` (the ref is not `null` where it is called). -/
def groupAdd (marker : Marker) (v : View) : View :=
  { v with markersGroupRef := v.markersGroupRef.map (fun children => children ++ [marker]) }

/-- The `for` loop of `updateMarkers`. -/
noncomputable def addFlights (asset : Option Model) : List Flight → View → View
  | [], v => v
  | flight :: rest, v =>
    if outOfRange flight = true then addFlights asset rest v
    else
      let created := createPlaneMarker asset flight v
      let marker : Marker :=
        { created.1 with
          position := project flight.latitude flight.longitude flight.altitude }
      addFlights asset rest (groupAdd marker created.2)

/-- The function `updateMarkers`, run to completion. -/
noncomputable def updateMarkers (asset : Option Model) (flights : List Flight) (v : View) : View :=
  match v.markersGroupRef with
  | none => v
  | some children =>
    addFlights asset flights { v with markersGroupRef := some (removeAll children) }

/-! ## Selection and highlight -/

/-- The expression `sel?.icao24` for a nullable flight. -/
def icao24Of : Option Flight → Ident
  | none => .undefined
  | some f => f.icao24

/-- An object returned by the raycaster, as far as `handleClick` looks at it:
`object.userData?.flight`. -/
structure Hit where
  flight : Option Flight

/-- The state update made by `handleClick` for the list `intersects`, applied to the
previous selection. -/
def handleClick (intersects : List Hit) (prev : Option Flight) : Option Flight :=
  match intersects with
  | [] => none
  | hit :: _ => if icao24Of prev = icao24Of hit.flight then none else hit.flight

/-- The click handler on the view state. -/
def click (intersects : List Hit) (v : View) : View :=
  { v with selectedPlane := handleClick intersects v.selectedPlane }

/-- The marker loop of `animate` for a clock reading `elapsed`. -/
noncomputable def animate (elapsed : ℝ) (v : View) : View :=
  { v with
    markersGroupRef := v.markersGroupRef.map (fun children =>
      children.map (fun marker =>
        if marker.flight.icao24 = icao24Of v.selectedPlane then
          { marker with
            emissiveIntensity :=
              marker.emissiveIntensity.map (fun _ => Real.sin (elapsed * 5) * 0.5 + 0.8) }
        else marker)) }

/-- The selection check at the end of a timer tick. -/
def refreshSelection (flights : List Flight) (selected : Option Flight) : Option Flight :=
  match selected with
  | none => none
  | some s => if flights.any (fun f => decide (f.icao24 = s.icao24)) = true then some s else none

/-- One tick of the `setInterval` callback, run to completion. -/
noncomputable def refresh (asset : Option Model) (r : FetchResult) (v : View) : View :=
  let fetched := fetchFlights r v.error
  let v1 := updateMarkers asset fetched.1 { v with error := fetched.2 }
  { v1 with selectedPlane := refreshSelection fetched.1 v1.selectedPlane }

/-- The events that change the view state. -/
inductive Event where
  | tick (r : FetchResult)
  | clicked (intersects : List Hit)
  | frame (elapsed : ℝ)

/-- One event applied to the view state. -/
noncomputable def step (asset : Option Model) (v : View) : Event → View
  | .tick r => refresh asset r v
  | .clicked intersects => click intersects v
  | .frame elapsed => animate elapsed v

/-- A sequence of events applied in order. -/
noncomputable def run (asset : Option Model) (v : View) (events : List Event) : View :=
  events.foldl (step asset) v

/-! ## Predicates of the stated properties -/

/-- Whether an evaluation threw. -/
def threw {α : Type} : Except String α → Bool
  | .error _ => true
  | .ok _ => false

/-- Filtering or mapping an element of `data.states` throws: the element is `null`, or it
passes the filter with a value at index 1 that is not a string. -/
def entryThrows : Option RawState → Bool
  | none => true
  | some s =>
    truthyNum s.s5 && truthyNum s.s6 && truthyNum s.s7 &&
      (match s.s1 with
        | some (.other truthy) => truthy
        | _ => false)

/-- The request fails: the fetch rejects, the status is not ok, reading or parsing the body
throws (`res.json()` rejects, or a property is read from a `null` body), or mapping the
body throws (`states` is not an array, or filtering or mapping one of its elements throws). -/
def requestFails : FetchResult → Bool
  | .rejected _ => true
  | .resolved res =>
    !res.ok ||
      (match res.json with
        | .error _ => true
        | .ok .null => true
        | .ok (.obj _ none) => false
        | .ok (.obj _ (some .notArray)) => true
        | .ok (.obj _ (some (.arr elements))) => elements.any entryThrows)

/-- The message that C3 states for a non-ok response: the `message` field of the body when
that is non-empty, otherwise the fixed text. -/
def statedMessage (res : Response) : String :=
  match res.json with
  | .ok (.obj (some t) _) => if t = "" then "Failed to fetch flight data" else t
  | _ => "Failed to fetch flight data"

/-- Latitude within [-90, 90] and longitude within [-180, 180]. -/
def inRange (f : Flight) : Prop :=
  -90 ≤ f.latitude ∧ f.latitude ≤ 90 ∧ -180 ≤ f.longitude ∧ f.longitude ≤ 180

instance (f : Flight) : Decidable (inRange f) := by
  unfold inRange
  infer_instance

/-! ## Example data -/

/-- An entry on the equator: every consumed field is present, the latitude is `0`. -/
def equatorEntry : RawState :=
  { s0 := .str "4b1805", s1 := some (.str "SWR456  "), s2 := some "Switzerland", s5 := some 11,
    s6 := some 0, s7 := some 10000, s9 := some 230, s10 := some 90, s11 := some 0 }

/-- The same entry one degree north of the equator. -/
def northEntry : RawState := { equatorEntry with s0 := .str "3c6444", s6 := some 1 }

/-- A successful response whose `states` holds `northEntry` and `equatorEntry`. -/
def equatorResponse : FetchResult :=
  .resolved { ok := true, json := .ok (.obj none (some (.arr [some northEntry, some equatorEntry]))) }

/-- The record that `fetchFlights` builds from `northEntry`. -/
def northFlight : Flight :=
  { icao24 := .str "3c6444", callsign := "SWR456", latitude := 1, longitude := 11,
    altitude := 10000, velocity := 230, heading := 90, verticalRate := 0,
    country := "Switzerland" }

/-- A response with status 503 and an empty body: `res.json()` rejects. -/
def emptyBodyResponse : Response :=
  { ok := false, json := .error "Unexpected end of JSON input" }

/-- A response with status 429 whose body is an object with a `message`. -/
def rateLimitedResponse : FetchResult :=
  .resolved { ok := false, json := .ok (.obj (some "Too many requests") none) }

/-- A successful response whose `states` array is empty. -/
def noFlightsResponse : FetchResult :=
  .resolved { ok := true, json := .ok (.obj none (some (.arr []))) }

/-- A successful response whose `states` holds `northEntry` and an entry that differs from
it in the value at index 1, the number 7. -/
def numberCallsignResponse : FetchResult :=
  .resolved { ok := true,
              json := .ok (.obj none
                (some (.arr [some northEntry, some { northEntry with s1 := some (.other true) }]))) }

/-- A successful response whose `states` holds `northEntry` and a `null` element. -/
def nullElementResponse : FetchResult :=
  .resolved { ok := true, json := .ok (.obj none (some (.arr [some northEntry, none]))) }

/-- A successful response whose `states` is an object, not an array. -/
def notArrayResponse : FetchResult :=
  .resolved { ok := true, json := .ok (.obj none (some .notArray)) }

/-- A flight over the given latitude and longitude, for the examples. -/
def flightAt (icao24 : String) (latitude longitude : ℚ) : Flight :=
  { icao24 := .str icao24, callsign := "TEST", latitude := latitude, longitude := longitude,
    altitude := 10000, velocity := 230, heading := 90, verticalRate := 0,
    country := "Unknown" }

/-- A marker as `createPlaneMarker` leaves it, placed at the origin, for the examples. -/
noncomputable def markerOf (id : Nat) (flight : Flight) : Marker :=
  { id := id, flight := flight, scale := 5,
    rotationY := -((flight.heading : ℝ) * (Real.pi / 180)),
    position := (0, 0, 0), emissiveIntensity := [0] }

/-- A view whose group holds three markers. -/
noncomputable def viewOfThree : View :=
  { nextId := 3, modelCache := some fallbackModel,
    markersGroupRef := some [markerOf 0 (flightAt "a0" 10 10), markerOf 1 (flightAt "a1" 20 20),
      markerOf 2 (flightAt "a2" 30 30)],
    selectedPlane := none, error := none }

/-- A batch of five in-range flights. -/
def batchOfFive : List Flight :=
  [flightAt "b0" 0 0, flightAt "b1" 90 180, flightAt "b2" (-90) (-180), flightAt "b3" 45 7,
    flightAt "b4" (-33) 151]

/-- The view of the examples with `s` selected. -/
noncomputable def viewSelecting (s : Flight) : View :=
  { viewOfThree with selectedPlane := some s }

/-- The view of the failing trace: one marker, as created, bound to `northFlight`;
nothing selected. -/
noncomputable def viewOfOne : View :=
  { nextId := 1, modelCache := some fallbackModel,
    markersGroupRef := some [markerOf 0 northFlight], selectedPlane := none, error := none }

/-- The failing trace: click the marker, render a frame at time 0, click the marker again,
render a frame at time 1. -/
noncomputable def deselectTrace : List Event :=
  [.clicked [{ flight := some northFlight }], .frame 0,
    .clicked [{ flight := some northFlight }], .frame 1]

/-! ## Projection: distance from the origin, pole, antipodes -/

/-- The sum of the squared coordinates of a projected point is the squared radius. -/
theorem project_sq_sum (lat lon alt : ℝ) :
    (project lat lon alt).1 ^ 2 + (project lat lon alt).2.1 ^ 2 + (project lat lon alt).2.2 ^ 2
      = (200 + alt / 2000) ^ 2 := by
  have h1 := Real.sin_sq_add_cos_sq ((90 - lat) * (Real.pi / 180))
  have h2 := Real.sin_sq_add_cos_sq ((lon + 180) * (Real.pi / 180))
  simp only [project]
  linear_combination
    ((200 + alt / 2000) ^ 2 * Real.sin ((90 - lat) * (Real.pi / 180)) ^ 2) * h2
      + (200 + alt / 2000) ^ 2 * h1

/-- C1: for latitude in [-90, 90], longitude in [-180, 180] and altitude at least 0, the
position computed by the projection of `updateMarkers` satisfies
`x^2 + y^2 + z^2 = (200 + altitude/2000)^2`, and its Euclidean distance from the origin is
exactly `200 + altitude/2000`. -/
theorem C1_project_distance (lat lon alt : ℝ)
    (hlat : -90 ≤ lat ∧ lat ≤ 90) (hlon : -180 ≤ lon ∧ lon ≤ 180) (halt : 0 ≤ alt) :
    (project lat lon alt).1 ^ 2 + (project lat lon alt).2.1 ^ 2 + (project lat lon alt).2.2 ^ 2
        = (200 + alt / 2000) ^ 2 ∧
      Real.sqrt ((project lat lon alt).1 ^ 2 + (project lat lon alt).2.1 ^ 2
        + (project lat lon alt).2.2 ^ 2) = 200 + alt / 2000 := by
  have _ := hlat
  have _ := hlon
  refine ⟨project_sq_sum lat lon alt, ?_⟩
  rw [project_sq_sum lat lon alt]
  exact Real.sqrt_sq (by positivity)

/-- C1 at latitude 45, longitude 90, altitude 10000: the distance is 205. -/
theorem C1_project_distance_witness :
    (project 45 90 10000).1 ^ 2 + (project 45 90 10000).2.1 ^ 2 + (project 45 90 10000).2.2 ^ 2
        = (200 + (10000 : ℝ) / 2000) ^ 2 ∧
      Real.sqrt ((project 45 90 10000).1 ^ 2 + (project 45 90 10000).2.1 ^ 2
        + (project 45 90 10000).2.2 ^ 2) = 200 + (10000 : ℝ) / 2000 :=
  C1_project_distance 45 90 10000 (by norm_num) (by norm_num) (by norm_num)

/-- C8: at latitude 90 and altitude 0 the projection of `updateMarkers` gives the point
`(0, 200, 0)` for every longitude in [-180, 180]. -/
theorem C8_north_pole (lon : ℝ) (hlon : -180 ≤ lon ∧ lon ≤ 180) :
    project 90 lon 0 = (0, 200, 0) := by
  have _ := hlon
  simp [project]

/-- C8 at longitude 37: the north pole is `(0, 200, 0)`. -/
theorem C8_north_pole_witness : project 90 37 0 = (0, 200, 0) :=
  C8_north_pole 37 (by norm_num)

/-- C9: the projection of `updateMarkers` maps (0, 0, 0) to `p = (200, 0, 0)` and
(0, 180, 0) to `q = (-200, 0, 0)`; `q = -p` and both have norm 200. -/
theorem C9_antipodal :
    project 0 0 0 = (200, 0, 0) ∧ project 0 180 0 = (-200, 0, 0) ∧
      project 0 180 0 = -(project 0 0 0) ∧
      Real.sqrt ((project 0 0 0).1 ^ 2 + (project 0 0 0).2.1 ^ 2 + (project 0 0 0).2.2 ^ 2)
        = 200 ∧
      Real.sqrt ((project 0 180 0).1 ^ 2 + (project 0 180 0).2.1 ^ 2
        + (project 0 180 0).2.2 ^ 2) = 200 := by
  have hphi : ((90 : ℝ) - 0) * (Real.pi / 180) = Real.pi / 2 := by ring
  have ht0 : ((0 : ℝ) + 180) * (Real.pi / 180) = Real.pi := by ring
  have ht1 : ((180 : ℝ) + 180) * (Real.pi / 180) = 2 * Real.pi := by ring
  have hp : project 0 0 0 = (200, 0, 0) := by
    simp only [project, hphi, ht0]
    simp
  have hq : project 0 180 0 = (-200, 0, 0) := by
    simp only [project, hphi, ht1]
    simp
  refine ⟨hp, hq, ?_, ?_, ?_⟩
  · rw [hp, hq]
    simp
  · rw [hp]
    simp
  · rw [hq]
    simp

/-! ## fetchFlights: the filter -/

/-- On an array whose value at index 1 is a string, the map callback returns a record. -/
theorem toFlight_of_callsign (s : RawState) (cs : String) (hs : s.s1 = some (.str cs)) :
    toFlight (some s) = .ok
      { icao24 := s.s0, callsign := jsTrim cs, latitude := orNum s.s6 0,
        longitude := orNum s.s5 0, altitude := orNum s.s7 0, velocity := orNum s.s9 0,
        heading := orNum s.s10 0, verticalRate := orNum s.s11 0,
        country := orStr s.s2 "Unknown" } := by
  simp [toFlight, hs]

/-- An evaluation threw exactly when its result is an error. -/
theorem threw_iff {α : Type} (x : Except String α) : threw x = true ↔ ∃ m, x = .error m := by
  cases x <;> simp [threw]

/-- The filter followed by the map throws exactly when some element makes one of the two
callbacks throw. -/
theorem filter_map_threw (states : List (Option RawState)) :
    threw (match filterThrowing keepState states with
      | .error m => (.error m : Except String (List Flight))
      | .ok kept => mapThrowing toFlight kept) = states.any entryThrows := by
  induction states with
  | nil => simp [filterThrowing, mapThrowing, threw]
  | cons e rest ih =>
    cases e with
    | none => simp [filterThrowing, keepState, threw, entryThrows]
    | some s =>
      cases hf : filterThrowing keepState rest with
      | error m =>
        rw [hf] at ih
        simp only [threw] at ih
        simp [filterThrowing, keepState, hf, threw, ← ih]
      | ok kept =>
        rw [hf] at ih
        simp only at ih
        cases hs : s.s1 with
        | none =>
          simp [filterThrowing, keepState, keepFields, truthyCallsign, hf, hs, entryThrows,
            ← ih]
        | some c =>
          cases c with
          | str cs =>
            by_cases hk : keepFields s = true
            · cases hm : mapThrowing toFlight kept with
              | error m =>
                rw [hm] at ih
                simp [filterThrowing, keepState, hk, hf, mapThrowing,
                  toFlight_of_callsign s cs hs, hm, entryThrows, hs, threw, ← ih]
              | ok fs =>
                rw [hm] at ih
                simp [filterThrowing, keepState, hk, hf, mapThrowing,
                  toFlight_of_callsign s cs hs, hm, entryThrows, hs, threw, ← ih]
            · simp [filterThrowing, keepState, hk, hf, entryThrows, hs, ← ih]
          | other t =>
            cases t with
            | true =>
              by_cases hk : keepFields s = true
              · have hk2 := hk
                simp only [keepFields, hs, truthyCallsign, Bool.and_true] at hk2
                simp [filterThrowing, keepState, hk, hf, mapThrowing, toFlight, hs,
                  entryThrows, threw, hk2]
              · have hk2 := hk
                simp only [keepFields, hs, truthyCallsign, Bool.and_true] at hk2
                simp [filterThrowing, keepState, hk, hf, entryThrows, hs, hk2, ← ih]
            | false =>
              simp [filterThrowing, keepState, keepFields, truthyCallsign, hf, hs,
                entryThrows, ← ih]

/-- On arrays whose value at index 1 is a string or `null`, the filter keeps the arrays
whose four tested fields are truthy and the map builds one record for each, in order. -/
theorem filter_map_of_strings (states : List RawState)
    (hstr : ∀ s ∈ states, ∀ t, s.s1 ≠ some (.other t)) :
    filterThrowing keepState (states.map some) = .ok ((states.filter keepFields).map some) ∧
      ∃ flights, mapThrowing toFlight ((states.filter keepFields).map some) = .ok flights ∧
        List.Forall₂ (fun s f => toFlight (some s) = .ok f) (states.filter keepFields)
          flights := by
  induction states with
  | nil => exact ⟨rfl, [], rfl, List.Forall₂.nil⟩
  | cons s rest ih =>
    obtain ⟨h1, fs, h2, h3⟩ := ih (fun s0 h0 => hstr s0 (List.mem_cons_of_mem _ h0))
    by_cases hk : keepFields s = true
    · obtain ⟨cs, hcs⟩ : ∃ cs, s.s1 = some (.str cs) := by
        cases hs : s.s1 with
        | none => simp [keepFields, hs, truthyCallsign] at hk
        | some c =>
          cases c with
          | str cs => exact ⟨cs, rfl⟩
          | other t => exact absurd hs (hstr s (List.mem_cons_self _ _) t)
      obtain ⟨f, hf⟩ : ∃ f, toFlight (some s) = .ok f := ⟨_, toFlight_of_callsign s cs hcs⟩
      refine ⟨by simp [filterThrowing, keepState, hk, h1, List.filter], f :: fs, ?_, ?_⟩
      · simp [List.filter, hk, mapThrowing, hf, h2]
      · have hc : List.Forall₂ (fun s f => toFlight (some s) = .ok f)
            (s :: rest.filter keepFields) (f :: fs) := List.Forall₂.cons hf h3
        simpa [List.filter, hk] using hc
    · refine ⟨by simp [filterThrowing, keepState, hk, h1, List.filter], fs, ?_, ?_⟩
      · simpa [List.filter, hk] using h2
      · simpa [List.filter, hk] using h3

/-- C2 (the code at the failing input): for a successful response with two entries whose
longitude, latitude, altitude and callsign are all non-null, `fetchFlights` returns the
record of the entry at latitude 1 only; the entry at latitude 0 is dropped by the filter. -/
theorem C2_zero_latitude_entry_dropped :
    equatorEntry.s5 ≠ none ∧ equatorEntry.s6 ≠ none ∧ equatorEntry.s7 ≠ none ∧
      equatorEntry.s1 ≠ none ∧
      fetchFlights equatorResponse none = ([northFlight], none) := by
  decide

/-! ## fetchFlights: failures -/

/-- The `try` block throws exactly when the request fails. -/
theorem fetchFlightsTry_error_iff (r : FetchResult) :
    (∃ m, fetchFlightsTry r = .error m) ↔ requestFails r = true := by
  rw [← threw_iff]
  rcases r with m | ⟨ok, json⟩
  · simp [fetchFlightsTry, requestFails, threw]
  · cases ok <;> rcases json with m | (_ | ⟨message, states⟩)
      <;> simp [fetchFlightsTry, requestFails, Body.readMessage, Body.readStates, threw]
    rcases states with _ | (_ | l)
    · simp [threw]
    · simp [threw]
    · exact filter_map_threw l

/-- A successful response whose `states` holds arrays with a string or `null` at index 1
gives one record per array whose four tested fields are truthy, in order, and leaves
`error` as it was. -/
theorem fetchFlights_of_states (message : Option String) (states : List RawState)
    (e : Option String) (hstr : ∀ s ∈ states, ∀ t, s.s1 ≠ some (.other t)) :
    ∃ flights,
      fetchFlights
          (.resolved { ok := true, json := .ok (.obj message (some (.arr (states.map some)))) }) e
        = (flights, e) ∧
      List.Forall₂ (fun s f => toFlight (some s) = .ok f) (states.filter keepFields)
        flights := by
  obtain ⟨h1, fs, h2, h3⟩ := filter_map_of_strings states hstr
  exact ⟨fs, by simp [fetchFlights, fetchFlightsTry, Body.readStates, h1, h2], h3⟩

/-- The three ways in which mapping the body throws: a value at index 1 that is not a
string, a `null` element, and a `states` that is not an array. In each the request fails,
the result is empty and the message of the `TypeError` is recorded. -/
theorem fetchFlights_mapping_throws :
    (requestFails numberCallsignResponse = true ∧
      fetchFlights numberCallsignResponse none
        = ([], some (notFunctionMessage "s[1].trim"))) ∧
    (requestFails nullElementResponse = true ∧
      fetchFlights nullElementResponse none = ([], some (nullReadMessage "5"))) ∧
    (requestFails notArrayResponse = true ∧
      fetchFlights notArrayResponse none
        = ([], some (notFunctionMessage "data.states?.filter"))) := by
  decide

/-- C3 (counterexample): for a non-ok response whose body cannot be parsed, the recorded
message is the message of the parse error, not the text stated for non-ok responses. -/
theorem C3_unreadable_body_counterexample :
    emptyBodyResponse.ok = false ∧
      fetchFlights (.resolved emptyBodyResponse) none
        = ([], some "Unexpected end of JSON input") ∧
      (fetchFlights (.resolved emptyBodyResponse) none).2
        ≠ some (statedMessage emptyBodyResponse) := by
  decide

/-- C3 (amended): whenever the request fails (the fetch rejects, the status is not ok, or
reading, parsing or mapping the body throws), `fetchFlights` returns the empty sequence and
records a message; the message is the rejection's when the fetch rejects, the read error's
when `res.json()` rejects, and for a non-ok response whose body parses to an object it is
the body's `message` field when that is non-empty and otherwise
`Failed to fetch flight data`. -/
theorem C3_failure_returns_empty_and_records (r : FetchResult) (e : Option String)
    (h : requestFails r = true) :
    ∃ m, fetchFlights r e = ([], some m) ∧
      (∀ m0, r = .rejected m0 → m = m0) ∧
      (∀ ok m0, r = .resolved { ok := ok, json := .error m0 } → m = m0) ∧
      (∀ t states, r = .resolved { ok := false, json := .ok (.obj (some t) states) } →
        t ≠ "" → m = t) ∧
      (∀ message states, r = .resolved { ok := false, json := .ok (.obj message states) } →
        message = none ∨ message = some "" → m = "Failed to fetch flight data") := by
  obtain ⟨m, hm⟩ := (fetchFlightsTry_error_iff r).mpr h
  refine ⟨m, by simp [fetchFlights, hm], ?_, ?_, ?_, ?_⟩
  · intro m0 h0
    subst h0
    simpa [fetchFlightsTry] using hm.symm
  · intro ok m0 h0
    subst h0
    cases ok <;> simpa [fetchFlightsTry] using hm.symm
  · intro t states h0 ht
    subst h0
    simpa [fetchFlightsTry, Body.readMessage, orStr, ht] using hm.symm
  · intro message states h0 hmsg
    subst h0
    rcases hmsg with rfl | rfl <;>
      simpa [fetchFlightsTry, Body.readMessage, orStr] using hm.symm

/-- C3 (amended) at a non-ok response with a `message`: the result is empty and a message
is recorded. -/
theorem C3_failure_returns_empty_and_records_witness :
    requestFails rateLimitedResponse = true ∧
    ∃ m, fetchFlights rateLimitedResponse (some "earlier") = ([], some m) ∧
      (∀ m0, rateLimitedResponse = .rejected m0 → m = m0) ∧
      (∀ ok m0, rateLimitedResponse = .resolved { ok := ok, json := .error m0 } → m = m0) ∧
      (∀ t states,
        rateLimitedResponse = .resolved { ok := false, json := .ok (.obj (some t) states) } →
        t ≠ "" → m = t) ∧
      (∀ message states,
        rateLimitedResponse = .resolved { ok := false, json := .ok (.obj message states) } →
        message = none ∨ message = some "" → m = "Failed to fetch flight data") :=
  ⟨by decide, C3_failure_returns_empty_and_records rateLimitedResponse (some "earlier")
    (by decide)⟩

/-! ## updateMarkers: the group after a run -/

/-- The loop guard skips exactly the flights that are not in range. -/
theorem outOfRange_eq_false_iff (f : Flight) : outOfRange f = false ↔ inRange f := by
  simp only [outOfRange, inRange, Bool.or_eq_false_iff, decide_eq_false_iff_not, not_lt,
    gt_iff_lt]
  tauto

/-- The removal loop empties the group. -/
theorem removeAll_eq_nil (children : List Marker) : removeAll children = [] := by
  induction children with
  | nil => rfl
  | cons _ rest ih => simpa [removeAll] using ih

/-- What the `for` loop appends to a group with children `c`: one marker per in-range
flight, in order, with fresh increasing identities, placed by the projection and created
with emissive intensity 0; selection and error are untouched. -/
theorem addFlights_spec (asset : Option Model) (flights : List Flight) :
    ∀ (v : View) (c : List Marker), v.markersGroupRef = some c →
      ∃ news, (addFlights asset flights v).markersGroupRef = some (c ++ news) ∧
        news.map (fun m => m.flight) = flights.filter (fun f => decide (inRange f)) ∧
        (∀ m ∈ news, v.nextId ≤ m.id) ∧
        news.Pairwise (fun a b => a.id < b.id) ∧
        (∀ m ∈ news,
          m.position = project m.flight.latitude m.flight.longitude m.flight.altitude ∧
          ∀ x ∈ m.emissiveIntensity, x = 0) ∧
        (addFlights asset flights v).selectedPlane = v.selectedPlane ∧
        (addFlights asset flights v).error = v.error := by
  induction flights with
  | nil =>
    intro v c hc
    exact ⟨[], by simpa [addFlights] using hc, by simp, by simp, by simp, by simp, rfl, rfl⟩
  | cons flight rest ih =>
    intro v c hc
    by_cases ho : outOfRange flight = true
    · have hnot : ¬ inRange flight := by
        intro hin
        rw [(outOfRange_eq_false_iff flight).mpr hin] at ho
        exact Bool.false_ne_true ho
      obtain ⟨news, h1, h2, h3, h4, h5, h6, h7⟩ := ih v c hc
      refine ⟨news, ?_, ?_, h3, h4, h5, ?_, ?_⟩
      · simpa [addFlights, ho] using h1
      · simpa [List.filter, hnot] using h2
      · simpa [addFlights, ho] using h6
      · simpa [addFlights, ho] using h7
    · have hin : inRange flight :=
        (outOfRange_eq_false_iff flight).mp (by simpa using ho)
      have hc1 : (groupAdd
          { (createPlaneMarker asset flight v).1 with
            position := project flight.latitude flight.longitude flight.altitude }
          (createPlaneMarker asset flight v).2).markersGroupRef
            = some (c ++ [{ (createPlaneMarker asset flight v).1 with
                position := project flight.latitude flight.longitude flight.altitude }]) := by
        simp [groupAdd, createPlaneMarker, hc]
      obtain ⟨news, h1, h2, h3, h4, h5, h6, h7⟩ := ih _ _ hc1
      refine ⟨{ (createPlaneMarker asset flight v).1 with
          position := project flight.latitude flight.longitude flight.altitude } :: news,
        ?_, ?_, ?_, ?_, ?_, ?_, ?_⟩
      · simpa [addFlights, ho] using h1
      · simpa [List.filter, hin, createPlaneMarker] using h2
      · intro m hm
        rcases List.mem_cons.mp hm with rfl | hm
        · simp [createPlaneMarker]
        · have := h3 m hm
          simp only [groupAdd, createPlaneMarker] at this
          omega
      · refine List.Pairwise.cons ?_ h4
        intro m hm
        have := h3 m hm
        simp only [groupAdd, createPlaneMarker] at this
        simp only [createPlaneMarker]
        omega
      · intro m hm
        rcases List.mem_cons.mp hm with rfl | hm
        · refine ⟨by simp [createPlaneMarker], ?_⟩
          intro x hx
          simp only [createPlaneMarker] at hx
          exact (List.mem_replicate.mp hx).2
        · exact h5 m hm
      · simpa [addFlights, ho, groupAdd, createPlaneMarker] using h6
      · simpa [addFlights, ho, groupAdd, createPlaneMarker] using h7

/-- C4: for an existing marker group `g` (all of whose markers were created earlier) and any
flight batch, after one complete run of `updateMarkers` the group holds no marker that was
in it before, and holds exactly one marker per flight of the batch whose latitude is in
[-90, 90] and longitude in [-180, 180], distinct markers, each bound to that flight, in
batch order; so every marker is bound to an in-range flight. A group of 3 markers and a
batch of 5 in-range flights give a group of exactly 5 markers. -/
theorem C4_updateMarkers_replaces_group (asset : Option Model) (flights : List Flight)
    (v : View) (g : List Marker)
    (hg : v.markersGroupRef = some g) (hold : ∀ m ∈ g, m.id < v.nextId) :
    ∃ ms, (updateMarkers asset flights v).markersGroupRef = some ms ∧
      (∀ m ∈ ms, ∀ m0 ∈ g, m.id ≠ m0.id) ∧
      ms.map (fun m => m.flight) = flights.filter (fun f => decide (inRange f)) ∧
      ms.Pairwise (fun a b => a.id ≠ b.id) ∧
      (∀ m ∈ ms, inRange m.flight) ∧
      (g.length = 3 → flights.length = 5 → (∀ f ∈ flights, inRange f) → ms.length = 5) := by
  obtain ⟨news, h1, h2, h3, h4, -, -, -⟩ :=
    addFlights_spec asset flights { v with markersGroupRef := some (removeAll g) }
      (removeAll g) rfl
  rw [removeAll_eq_nil, List.nil_append] at h1
  refine ⟨news, ?_, ?_, h2, ?_, ?_, ?_⟩
  · simpa [updateMarkers, hg, removeAll_eq_nil] using h1
  · intro m hm m0 hm0
    have hge := h3 m hm
    have hlt := hold m0 hm0
    simp only at hge
    omega
  · exact h4.imp (fun hab => Nat.ne_of_lt hab)
  · intro m hm
    have hmem : m.flight ∈ news.map (fun m => m.flight) := List.mem_map_of_mem _ hm
    rw [h2] at hmem
    simpa using (List.mem_filter.mp hmem).2
  · intro _ hlen hall
    have hfil : flights.filter (fun f => decide (inRange f)) = flights :=
      List.filter_eq_self.mpr (fun f hf => by simpa using hall f hf)
    have := congrArg List.length h2
    rw [hfil, List.length_map] at this
    omega

/-- C4 at a group of three markers and a batch of five in-range flights. -/
theorem C4_updateMarkers_replaces_group_witness :
    (viewOfThree.markersGroupRef = some [markerOf 0 (flightAt "a0" 10 10),
        markerOf 1 (flightAt "a1" 20 20), markerOf 2 (flightAt "a2" 30 30)] ∧
      ∀ m ∈ [markerOf 0 (flightAt "a0" 10 10), markerOf 1 (flightAt "a1" 20 20),
        markerOf 2 (flightAt "a2" 30 30)], m.id < viewOfThree.nextId) ∧
    ∃ ms, (updateMarkers none batchOfFive viewOfThree).markersGroupRef = some ms ∧
      (∀ m ∈ ms, ∀ m0 ∈ [markerOf 0 (flightAt "a0" 10 10), markerOf 1 (flightAt "a1" 20 20),
        markerOf 2 (flightAt "a2" 30 30)], m.id ≠ m0.id) ∧
      ms.map (fun m => m.flight) = batchOfFive.filter (fun f => decide (inRange f)) ∧
      ms.Pairwise (fun a b => a.id ≠ b.id) ∧
      (∀ m ∈ ms, inRange m.flight) ∧
      (([markerOf 0 (flightAt "a0" 10 10), markerOf 1 (flightAt "a1" 20 20),
        markerOf 2 (flightAt "a2" 30 30)] : List Marker).length = 3 →
        batchOfFive.length = 5 → (∀ f ∈ batchOfFive, inRange f) → ms.length = 5) :=
  ⟨⟨rfl, by simp [markerOf, viewOfThree]⟩,
    C4_updateMarkers_replaces_group none batchOfFive viewOfThree _ rfl
      (by simp [markerOf, viewOfThree])⟩

/-- The batch of five is in range, so the group of the example ends with five markers. -/
theorem batchOfFive_inRange : ∀ f ∈ batchOfFive, inRange f := by
  simp [batchOfFive, flightAt, inRange]
  norm_num

/-! ## Selection: click toggle and refresh -/

/-- A run of `updateMarkers` leaves the selection as it was. -/
theorem updateMarkers_selectedPlane (asset : Option Model) (flights : List Flight) (v : View) :
    (updateMarkers asset flights v).selectedPlane = v.selectedPlane := by
  cases hg : v.markersGroupRef with
  | none => simp [updateMarkers, hg]
  | some g =>
    obtain ⟨_, -, -, -, -, -, h6, -⟩ :=
      addFlights_spec asset flights { v with markersGroupRef := some (removeAll g) }
        (removeAll g) rfl
    simpa [updateMarkers, hg] using h6

/-- A run of `updateMarkers` leaves the recorded error as it was. -/
theorem updateMarkers_error (asset : Option Model) (flights : List Flight) (v : View) :
    (updateMarkers asset flights v).error = v.error := by
  cases hg : v.markersGroupRef with
  | none => simp [updateMarkers, hg]
  | some g =>
    obtain ⟨_, -, -, -, -, -, -, h7⟩ :=
      addFlights_spec asset flights { v with markersGroupRef := some (removeAll g) }
        (removeAll g) rfl
    simpa [updateMarkers, hg] using h7

/-- The selection after a timer tick is the selection check applied to the fetched flights. -/
theorem refresh_selectedPlane (asset : Option Model) (r : FetchResult) (v : View) :
    (refresh asset r v).selectedPlane
      = refreshSelection (fetchFlights r v.error).1 v.selectedPlane := by
  simp [refresh, updateMarkers_selectedPlane]

/-- C5: for a timer tick with fetch result `r`, a selection `s` becomes null when no fetched
flight has the `icao24` of `s`, stays `s` when some fetched flight has it, and a null
selection stays null. -/
theorem C5_refresh_clears_missing_selection (asset : Option Model) (r : FetchResult)
    (v : View) :
    (∀ s, v.selectedPlane = some s →
      ((∀ f ∈ (fetchFlights r v.error).1, f.icao24 ≠ s.icao24) →
        (refresh asset r v).selectedPlane = none) ∧
      ((∃ f ∈ (fetchFlights r v.error).1, f.icao24 = s.icao24) →
        (refresh asset r v).selectedPlane = some s)) ∧
    (v.selectedPlane = none → (refresh asset r v).selectedPlane = none) := by
  refine ⟨?_, ?_⟩
  · intro s hs
    rw [refresh_selectedPlane, hs]
    refine ⟨?_, ?_⟩
    · intro hno
      have : ((fetchFlights r v.error).1.any (fun f => decide (f.icao24 = s.icao24))) = false := by
        simpa [List.any_eq_false] using hno
      simp [refreshSelection, this]
    · intro hex
      have : ((fetchFlights r v.error).1.any (fun f => decide (f.icao24 = s.icao24))) = true := by
        simpa [List.any_eq_true] using hex
      simp [refreshSelection, this]
  · intro hs
    rw [refresh_selectedPlane, hs]
    rfl

/-- C5 at a tick whose fetch returns one flight with icao24 3c6444: a selection with
another icao24 is cleared, a selection with that icao24 is kept. -/
theorem C5_refresh_clears_missing_selection_witness :
    (refresh none equatorResponse (viewSelecting (flightAt "a0" 10 10))).selectedPlane = none ∧
      (refresh none equatorResponse (viewSelecting (flightAt "3c6444" 10 10))).selectedPlane
        = some (flightAt "3c6444" 10 10) := by
  have hf : (fetchFlights equatorResponse none).1 = [northFlight] := by decide
  refine ⟨?_, ?_⟩
  · refine ((C5_refresh_clears_missing_selection none equatorResponse
      (viewSelecting (flightAt "a0" 10 10))).1 _ rfl).1 ?_
    intro f hfm
    have hfm2 : f ∈ (fetchFlights equatorResponse none).1 := hfm
    rw [hf] at hfm2
    rw [List.mem_singleton.mp hfm2]
    decide
  · refine ((C5_refresh_clears_missing_selection none equatorResponse
      (viewSelecting (flightAt "3c6444" 10 10))).1 _ rfl).2 ?_
    refine ⟨northFlight, ?_, rfl⟩
    show northFlight ∈ (fetchFlights equatorResponse none).1
    rw [hf]
    exact List.mem_singleton.mpr rfl

/-- C6: when a marker bound to a flight `f` with a defined `icao24` is the first
intersected object, the update of `handleClick` yields null if the prior selection has the
`icao24` of `f` and yields `f` otherwise; a second click after a click that selected `f`
yields null, and two clicks starting from no selection end with null. -/
theorem C6_click_toggles (f : Flight) (prev : Option Flight) (others : List Hit)
    (hdef : f.icao24 ≠ Ident.undefined) :
    (∀ p, prev = some p → p.icao24 = f.icao24 →
      handleClick ({ flight := some f } :: others) prev = none) ∧
    ((prev = none ∨ ∃ p, prev = some p ∧ p.icao24 ≠ f.icao24) →
      handleClick ({ flight := some f } :: others) prev = some f) ∧
    (handleClick ({ flight := some f } :: others) prev = some f →
      handleClick ({ flight := some f } :: others)
        (handleClick ({ flight := some f } :: others) prev) = none) ∧
    handleClick ({ flight := some f } :: others)
      (handleClick ({ flight := some f } :: others) none) = none := by
  have hnone : handleClick ({ flight := some f } :: others) none = some f := by
    have : ¬ Ident.undefined = f.icao24 := fun h => hdef h.symm
    simp [handleClick, icao24Of, this]
  have hsame : handleClick ({ flight := some f } :: others) (some f) = none := by
    simp [handleClick, icao24Of]
  refine ⟨?_, ?_, ?_, ?_⟩
  · intro p hp hpf
    simp [handleClick, icao24Of, hp, hpf]
  · rintro (hp | ⟨p, hp, hpf⟩)
    · rw [hp]
      exact hnone
    · simp [handleClick, icao24Of, hp, hpf]
  · intro h
    rw [h]
    exact hsame
  · rw [hnone]
    exact hsame

/-- C6 at a marker bound to a flight with icao24 3c6444, starting from another selection. -/
theorem C6_click_toggles_witness :
    (flightAt "3c6444" 1 11).icao24 ≠ Ident.undefined ∧
    ((∀ p, some (flightAt "a0" 10 10) = some p → p.icao24 = (flightAt "3c6444" 1 11).icao24 →
      handleClick [{ flight := some (flightAt "3c6444" 1 11) }]
        (some (flightAt "a0" 10 10)) = none) ∧
    ((some (flightAt "a0" 10 10) = none ∨
        ∃ p, some (flightAt "a0" 10 10) = some p ∧
          p.icao24 ≠ (flightAt "3c6444" 1 11).icao24) →
      handleClick [{ flight := some (flightAt "3c6444" 1 11) }] (some (flightAt "a0" 10 10))
        = some (flightAt "3c6444" 1 11)) ∧
    (handleClick [{ flight := some (flightAt "3c6444" 1 11) }] (some (flightAt "a0" 10 10))
        = some (flightAt "3c6444" 1 11) →
      handleClick [{ flight := some (flightAt "3c6444" 1 11) }]
        (handleClick [{ flight := some (flightAt "3c6444" 1 11) }]
          (some (flightAt "a0" 10 10))) = none) ∧
    handleClick [{ flight := some (flightAt "3c6444" 1 11) }]
      (handleClick [{ flight := some (flightAt "3c6444" 1 11) }] none) = none) :=
  ⟨by decide, C6_click_toggles (flightAt "3c6444" 1 11) (some (flightAt "a0" 10 10)) []
    (by decide)⟩

/-! ## A timer tick without flights -/

/-- The selection check clears every selection when no flight was fetched. -/
theorem refreshSelection_nil (selected : Option Flight) : refreshSelection [] selected = none := by
  cases selected <;> simp [refreshSelection]

/-- A tick whose fetch returns no flight empties an existing group, clears the selection and
leaves `error` as the fetch left it; no object is created. -/
theorem refresh_of_no_flights (asset : Option Model) (r : FetchResult) (v : View)
    (g : List Marker) (e : Option String)
    (hg : v.markersGroupRef = some g) (hf : fetchFlights r v.error = ([], e)) :
    refresh asset r v =
      { v with markersGroupRef := some [], selectedPlane := none, error := e } := by
  simp [refresh, hf, updateMarkers, hg, removeAll_eq_nil, addFlights, refreshSelection_nil]

/-- A failed request makes `fetchFlights` return no flight and record a message. -/
theorem fetchFlights_of_requestFails (r : FetchResult) (e : Option String)
    (h : requestFails r = true) : ∃ m, fetchFlights r e = ([], some m) := by
  obtain ⟨m, hm⟩ := (fetchFlightsTry_error_iff r).mpr h
  exact ⟨m, by simp [fetchFlights, hm]⟩

/-- A request that does not fail leaves `error` as it was. -/
theorem fetchFlights_of_not_requestFails (r : FetchResult) (e : Option String)
    (h : requestFails r = false) : (fetchFlights r e).2 = e := by
  cases ht : fetchFlightsTry r with
  | ok fs => simp [fetchFlights, ht]
  | error m =>
    have := (fetchFlightsTry_error_iff r).mp ⟨m, ht⟩
    rw [h] at this
    exact absurd this Bool.false_ne_true

/-- C10: a timer tick whose fetch fails leaves an existing marker group empty and the
selection null, whatever they were, and records a message; the marker group and the
selection (and the rest of the state but `error`) are the same as after a tick whose fetch
succeeds with zero flights. -/
theorem C10_failed_refresh_clears_view (asset : Option Model) (r r0 : FetchResult) (v : View)
    (g : List Marker) (hg : v.markersGroupRef = some g)
    (hfail : requestFails r = true)
    (hok : requestFails r0 = false) (hzero : (fetchFlights r0 v.error).1 = []) :
    (refresh asset r v).markersGroupRef = some [] ∧
      (refresh asset r v).selectedPlane = none ∧
      (∃ m, (refresh asset r v).error = some m) ∧
      (refresh asset r v).markersGroupRef = (refresh asset r0 v).markersGroupRef ∧
      (refresh asset r v).selectedPlane = (refresh asset r0 v).selectedPlane ∧
      refresh asset r v = { refresh asset r0 v with error := (refresh asset r v).error } := by
  obtain ⟨m, hm⟩ := fetchFlights_of_requestFails r v.error hfail
  have h0 : fetchFlights r0 v.error = ([], v.error) :=
    Prod.ext hzero (fetchFlights_of_not_requestFails r0 v.error hok)
  rw [refresh_of_no_flights asset r v g (some m) hg hm,
    refresh_of_no_flights asset r0 v g v.error hg h0]
  exact ⟨rfl, rfl, ⟨m, rfl⟩, rfl, rfl, rfl⟩

/-- C10 at a group of three markers with one of their flights selected, a rejected fetch
and a successful fetch of zero flights. -/
theorem C10_failed_refresh_clears_view_witness :
    ((viewSelecting (flightAt "a0" 10 10)).markersGroupRef
        = some [markerOf 0 (flightAt "a0" 10 10), markerOf 1 (flightAt "a1" 20 20),
            markerOf 2 (flightAt "a2" 30 30)] ∧
      requestFails (.rejected "Failed to fetch") = true ∧
      requestFails noFlightsResponse = false ∧
      (fetchFlights noFlightsResponse (viewSelecting (flightAt "a0" 10 10)).error).1 = []) ∧
    ((refresh none (.rejected "Failed to fetch")
        (viewSelecting (flightAt "a0" 10 10))).markersGroupRef = some [] ∧
      (refresh none (.rejected "Failed to fetch")
        (viewSelecting (flightAt "a0" 10 10))).selectedPlane = none ∧
      (∃ m, (refresh none (.rejected "Failed to fetch")
        (viewSelecting (flightAt "a0" 10 10))).error = some m) ∧
      (refresh none (.rejected "Failed to fetch")
          (viewSelecting (flightAt "a0" 10 10))).markersGroupRef
        = (refresh none noFlightsResponse
            (viewSelecting (flightAt "a0" 10 10))).markersGroupRef ∧
      (refresh none (.rejected "Failed to fetch")
          (viewSelecting (flightAt "a0" 10 10))).selectedPlane
        = (refresh none noFlightsResponse
            (viewSelecting (flightAt "a0" 10 10))).selectedPlane ∧
      refresh none (.rejected "Failed to fetch") (viewSelecting (flightAt "a0" 10 10))
        = { refresh none noFlightsResponse (viewSelecting (flightAt "a0" 10 10)) with
            error := (refresh none (.rejected "Failed to fetch")
              (viewSelecting (flightAt "a0" 10 10))).error }) :=
  ⟨⟨rfl, by decide, by decide, by decide⟩,
    C10_failed_refresh_clears_view none (.rejected "Failed to fetch") noFlightsResponse
      (viewSelecting (flightAt "a0" 10 10)) _ rfl (by decide) (by decide) (by decide)⟩

/-! ## Highlight -/

/-- After a frame, every mesh of a marker of the group whose `icao24` equals that of the
selection has the pulse value for that frame. -/
theorem animate_selected_pulse (elapsed : ℝ) (v : View) (g : List Marker)
    (hg : v.markersGroupRef = some g) :
    ∃ g1, (animate elapsed v).markersGroupRef = some g1 ∧
      ∀ m ∈ g1, m.flight.icao24 = icao24Of v.selectedPlane →
        ∀ x ∈ m.emissiveIntensity, x = Real.sin (elapsed * 5) * 0.5 + 0.8 := by
  refine ⟨g.map (fun marker =>
      if marker.flight.icao24 = icao24Of v.selectedPlane then
        { marker with
          emissiveIntensity :=
            marker.emissiveIntensity.map (fun _ => Real.sin (elapsed * 5) * 0.5 + 0.8) }
      else marker), by simp only [animate, hg, Option.map_some'], ?_⟩
  intro m hm hsel x hx
  obtain ⟨m0, -, rfl⟩ := List.mem_map.mp hm
  by_cases h0 : m0.flight.icao24 = icao24Of v.selectedPlane
  · simp only [h0, if_true] at hx
    obtain ⟨_, -, rfl⟩ := List.mem_map.mp hx
    rfl
  · simp only [h0, if_false] at hsel

/-- A frame leaves a marker that is not selected exactly as it was: its emissive intensity
is not set back to 0. -/
theorem animate_unselected_unchanged (elapsed : ℝ) (v : View) (g : List Marker)
    (hg : v.markersGroupRef = some g)
    (hno : ∀ m ∈ g, m.flight.icao24 ≠ icao24Of v.selectedPlane) :
    animate elapsed v = v := by
  have hmap : g.map (fun marker =>
      if marker.flight.icao24 = icao24Of v.selectedPlane then
        { marker with
          emissiveIntensity :=
            marker.emissiveIntensity.map (fun _ => Real.sin (elapsed * 5) * 0.5 + 0.8) }
      else marker) = g := by
    conv_rhs => rw [← List.map_id g]
    refine List.map_congr_left ?_
    intro m hm
    simp [hno m hm]
  cases v
  simp only at hg
  subst hg
  simp only [animate, Option.map_some', hmap]

/-- C7 (the code at the failing input): after selecting the marker, a frame at time 0,
deselecting it and a further frame, the selection is null and the marker, no longer
selected, still has the emissive intensity 0.8 of the earlier frame, not 0. -/
theorem C7_deselected_marker_keeps_highlight :
    (run none viewOfOne deselectTrace).selectedPlane = none ∧
      (run none viewOfOne deselectTrace).markersGroupRef
        = some [{ markerOf 0 northFlight with emissiveIntensity := [0.8] }] ∧
      ((0.8 : ℝ) ≠ 0) := by
  refine ⟨?_, ?_, by norm_num⟩
  · simp [run, step, deselectTrace, viewOfOne, click, animate, handleClick, icao24Of,
      northFlight]
  · simp [run, step, deselectTrace, viewOfOne, click, animate, handleClick, icao24Of,
      markerOf, northFlight]

end FlightTracker
